import Mathlib

/-!
Shallow embedding of the PDF rasterization / presentation-assembly pipeline
of this repository (the PDF2PPTX and PDF2PPTX_2 applications), together with
theorems checking the specification claims against the embedded code.

Python floats are modelled by rationals, Python ints by integers; Python
built-in `int(x)` on a float is truncation toward zero.
-/

/-- Python builtin `int` applied to a rational value: truncation toward zero
(floor for nonnegative arguments, ceiling for negative ones). -/
def truncQ (q : ℚ) : ℤ := q.num.tdiv q.den

/- ---------------------------------------------------------------------
UnitConverter: PDF2PPTX src/core/pdf_processor.py, mm_to_emu / points_to_emu,
and PDF2PPTX_2 src/core/pptx_generator.py get_presentation_info
(slide_width / 36000).
--------------------------------------------------------------------- -/

/-- Python source: int((mm / 25.4) * 914400), from mm_to_emu in
PDF2PPTX src/core/pdf_processor.py. -/
def mm_to_emu (mm : ℚ) : ℤ := truncQ ((mm / (254/10)) * 914400)

/-- Python source: int((points / 72) * 914400), from points_to_emu in
PDF2PPTX src/core/pdf_processor.py. -/
def points_to_emu (points : ℚ) : ℤ := truncQ ((points / 72) * 914400)

/-- Python source: prs.slide_width / 36000 (true division), the native-units
to millimeters conversion used by PPTXGenerator.get_presentation_info in
PDF2PPTX_2 src/core/pptx_generator.py. -/
def emu_to_mm (emu : ℤ) : ℚ := (emu : ℚ) / 36000

/- ---------------------------------------------------------------------
LayoutEngine: PDF2PPTX src/core/powerpoint_converter.py,
PowerPointConversionService._calculate_fitted_dimensions and the centering
computation of _add_page_to_presentation.
--------------------------------------------------------------------- -/

/-- Python source: _calculate_fitted_dimensions(image_width, image_height,
slide_width, slide_height).  margin_ratio = 0.9; available sizes are
int(slide * 0.9); if the image fits in both available sizes it is returned
unscaled, otherwise both sides are scaled by the smaller of the two
availability ratios and truncated to int. -/
def calculateFittedDimensions (imageWidth imageHeight slideWidth slideHeight : ℤ) :
    ℤ × ℤ :=
  let availableWidth := truncQ ((slideWidth : ℚ) * (9/10))
  let availableHeight := truncQ ((slideHeight : ℚ) * (9/10))
  if imageWidth ≤ availableWidth ∧ imageHeight ≤ availableHeight then
    (imageWidth, imageHeight)
  else
    let widthR : ℚ := (availableWidth : ℚ) / (imageWidth : ℚ)
    let heightR : ℚ := (availableHeight : ℚ) / (imageHeight : ℚ)
    let scaleR := min widthR heightR
    (truncQ ((imageWidth : ℚ) * scaleR), truncQ ((imageHeight : ℚ) * scaleR))

/-- Placement rectangle of one page image on a slide. -/
structure Placement where
  left : ℤ
  top : ℤ
  width : ℤ
  height : ℤ
deriving DecidableEq, Repr

/-- Python source: the placement computed in _add_page_to_presentation:
final size from _calculate_fitted_dimensions, then
left = int((slide_width - final_width) / 2) and
top = int((slide_height - final_height) / 2). -/
def pagePlacement (imageWidth imageHeight slideWidth slideHeight : ℤ) : Placement :=
  let fd := calculateFittedDimensions imageWidth imageHeight slideWidth slideHeight
  { left := truncQ (((slideWidth : ℚ) - (fd.1 : ℚ)) / 2)
    top := truncQ (((slideHeight : ℚ) - (fd.2 : ℚ)) / 2)
    width := fd.1
    height := fd.2 }

/- ---------------------------------------------------------------------
PageRasterizer rotation policy: PDF2PPTX src/core/pdf_processor.py
process_page_to_pixmap (auto_rotate flag), and PDF2PPTX_2
src/core/pdf_processor.py PDFProcessor._apply_rotation (RotationMode enum).
--------------------------------------------------------------------- -/

/-- Rotation policy of PDF2PPTX_2 (RotationMode enum in
src/core/pdf_processor.py). -/
inductive RotationMode where
  | none
  | auto
  | cw90
  | cw180
  | cw270
deriving DecidableEq, Repr

/-- Per-page geometry record of PDF2PPTX (PageInfo dataclass in
src/core/pdf_processor.py). -/
structure PageInfo where
  pageNumber : ℕ
  originalSize : ℚ × ℚ
  isPortrait : Bool
  wasRotated : Bool
  finalSize : ℚ × ℚ
deriving DecidableEq, Repr

/-- Python source: geometry part of process_page_to_pixmap in PDF2PPTX
src/core/pdf_processor.py: is_portrait = width < height, rotation = 90 if
(config.auto_rotate and is_portrait) else 0, and final_size swaps width and
height exactly when rotation == 90. -/
def processPageToPixmapInfo (pageNumber : ℕ) (width height : ℚ)
    (autoRotate : Bool) : PageInfo :=
  let isPortrait := decide (width < height)
  let rotation : ℕ := if autoRotate && isPortrait then 90 else 0
  { pageNumber := pageNumber
    originalSize := (width, height)
    isPortrait := isPortrait
    wasRotated := rotation == 90
    finalSize := if rotation = 90 then (height, width) else (width, height) }

/-- Python source: PDFProcessor._apply_rotation in PDF2PPTX_2
src/core/pdf_processor.py, expressed on image pixel sizes: NONE returns the
image unchanged; AUTO rotates 90 degrees exactly when the page orientation
(page_rect.width > page_rect.height) differs from the image orientation
(image.width > image.height); CLOCKWISE_90/270 swap the image sides and
CLOCKWISE_180 keeps them. -/
def applyRotation (pageWidth pageHeight : ℚ) (imageWidth imageHeight : ℕ)
    (mode : RotationMode) : ℕ × ℕ :=
  match mode with
  | RotationMode.none => (imageWidth, imageHeight)
  | RotationMode.auto =>
    let pageIsLandscape := decide (pageHeight < pageWidth)
    let imageIsLandscape := decide (imageHeight < imageWidth)
    if pageIsLandscape != imageIsLandscape then (imageHeight, imageWidth)
    else (imageWidth, imageHeight)
  | RotationMode.cw90 => (imageHeight, imageWidth)
  | RotationMode.cw180 => (imageWidth, imageHeight)
  | RotationMode.cw270 => (imageHeight, imageWidth)

/- ---------------------------------------------------------------------
ConversionSettings validation: PDF2PPTX src/core/pdf_processor.py
ConversionConfig.__post_init__ and validate_conversion_config, and the
PDF2PPTX_2 ConversionSettings dataclass (src/core/pdf_processor.py, which
declares fields only and performs no validation at all).
--------------------------------------------------------------------- -/

/-- Python source: ConversionConfig.__post_init__ in PDF2PPTX
src/core/pdf_processor.py: raises when scale_factor <= 0 or target_dpi < 72,
otherwise construction succeeds. -/
def conversionConfigPostInit (scaleFactor : ℚ) (targetDpi : ℤ) :
    Except String Unit :=
  if scaleFactor ≤ 0 then Except.error "Scale factor must be positive"
  else if targetDpi < 72 then Except.error "DPI must be at least 72"
  else Except.ok ()

/-- Python source: validate_conversion_config in PDF2PPTX
src/core/pdf_processor.py. -/
def validateConversionConfig (scaleFactor slideWidthMm slideHeightMm : ℚ)
    (targetDpi : ℤ) : Except String Unit :=
  if scaleFactor ≤ 0 ∨ 10 < scaleFactor then
    Except.error "Scale factor must be between 0 and 10"
  else if slideWidthMm ≤ 0 ∨ slideHeightMm ≤ 0 then
    Except.error "Slide dimensions must be positive"
  else if targetDpi < 72 ∨ 600 < targetDpi then
    Except.error "DPI must be between 72 and 600"
  else Except.ok ()

/-- Python source: the ConversionSettings dataclass of PDF2PPTX_2
src/core/pdf_processor.py; it has no __post_init__ and no validation, so any
field values are accepted at construction. -/
structure ConversionSettings where
  dpi : ℤ
  scale : ℚ
  rotationMode : RotationMode
  quality : ℤ
  transparentBackground : Bool
  antiAliasing : Bool

/- ---------------------------------------------------------------------
LabelTextBuilder: PDF2PPTX_2 src/core/pptx_generator.py,
PPTXGenerator._build_label_text and PPTXGenerator._clean_filename.
--------------------------------------------------------------------- -/

/-- The fields of the PDF2PPTX_2 LabelStyle dataclass that are read by
_build_label_text (add_filename, add_page_numbers, custom_text). -/
structure LabelStyle where
  addFilename : Bool
  addPageNumbers : Bool
  customText : String
deriving DecidableEq, Repr

/-- Python source: the initial step of _clean_filename: if
filename.lower().endswith(".pdf") the last four characters are dropped. -/
def cleanupPdfSuffix (s : List Char) : List Char :=
  if (s.map Char.toLower).reverse.take 4 = ['f', 'd', 'p', '.'] then
    s.take (s.length - 4)
  else s

/-- Pattern 1 of _clean_filename: the regular expression
underscore page underscore digits underscore digits, anchored at the end of
the string, matched here on the reversed character list.  On success returns
the captured trailing digit group and the part before the match, both
reversed. -/
def matchPageNumNum (r : List Char) : Option (List Char × List Char) :=
  let p1 := r.span Char.isDigit
  if p1.1 = [] then Option.none else
  match p1.2 with
  | '_' :: r2 =>
    let p2 := r2.span Char.isDigit
    if p2.1 = [] then Option.none else
    match p2.2 with
    | '_' :: 'e' :: 'g' :: 'a' :: 'p' :: '_' :: base => some (p1.1, base)
    | _ => Option.none
  | _ => Option.none

/-- Pattern 2 of _clean_filename: underscore page underscore digits anchored
at the end, matched on the reversed character list; returns the part before
the match, reversed. -/
def matchPageNum (r : List Char) : Option (List Char) :=
  let p1 := r.span Char.isDigit
  if p1.1 = [] then Option.none else
  match p1.2 with
  | '_' :: 'e' :: 'g' :: 'a' :: 'p' :: '_' :: base => some base
  | _ => Option.none

/-- Pattern 3 of _clean_filename: underscore digits underscore digits
anchored at the end, matched on the reversed character list; returns the
captured trailing digit group and the part before the match, both
reversed. -/
def matchNumNum (r : List Char) : Option (List Char × List Char) :=
  let p1 := r.span Char.isDigit
  if p1.1 = [] then Option.none else
  match p1.2 with
  | '_' :: r2 =>
    let p2 := r2.span Char.isDigit
    if p2.1 = [] then Option.none else
    match p2.2 with
    | '_' :: base => some (p1.1, base)
    | _ => Option.none
  | _ => Option.none

/-- Python source: PPTXGenerator._clean_filename.  Pattern 1 rewrites a
trailing _page_AAA_B suffix to _B; otherwise pattern 2 strips a trailing
_page_AAA suffix and then pattern 3 rewrites a remaining trailing _A_B
suffix to _B. -/
def cleanFilename (filename : String) : String :=
  let s := cleanupPdfSuffix filename.data
  let r := s.reverse
  match matchPageNumNum r with
  | some p => String.mk (p.2.reverse ++ '_' :: p.1.reverse)
  | Option.none =>
    let r2 := match matchPageNum r with
      | some base => base
      | Option.none => r
    match matchNumNum r2 with
    | some p => String.mk (p.2.reverse ++ '_' :: p.1.reverse)
    | Option.none => String.mk r2.reverse

/-- Python truthiness of an optional int argument (page_number). -/
def pyTruthyNat : Option ℕ → Bool
  | Option.none => false
  | some n => n != 0

/-- Python source: PPTXGenerator._build_label_text: collects the cleaned
filename and page number (as cleaned_stem underscore page when both flags are
set and the page number is truthy), then the custom text and the custom
title when nonempty, joined with the separator bar surrounded by spaces. -/
def buildLabelText (stem : String) (pageNumber : Option ℕ)
    (customTitle : Option String) (style : LabelStyle) : String :=
  let parts1 : List String :=
    if style.addFilename && style.addPageNumbers && pyTruthyNat pageNumber then
      [cleanFilename stem ++ "_" ++ toString (pageNumber.getD 0)]
    else if style.addFilename then
      [cleanFilename stem]
    else if style.addPageNumbers && pyTruthyNat pageNumber then
      [toString (pageNumber.getD 0)]
    else []
  let parts2 := parts1 ++ (if style.customText != "" then [style.customText] else [])
  let parts3 := parts2 ++ (match customTitle with
    | some t => if t != "" then [t] else []
    | Option.none => [])
  String.intercalate " | " parts3

/- ---------------------------------------------------------------------
Hex color parsing: PDF2PPTX src/core/powerpoint_converter.py,
PowerPointConversionService._hex_to_rgb.  The two-character groups are fed to
the Python builtin int(group, 16), modelled here with its documented grammar:
optional surrounding whitespace, an optional sign, an optional 0x prefix and
hex digits separated by single underscores (ASCII digits and whitespace).
--------------------------------------------------------------------- -/

/-- Value of one hexadecimal digit accepted by int(s, 16): the character
ranges 0-9 (codes 48-57), a-f (97-102) and A-F (65-70). -/
def hexDigitVal (c : Char) : Option ℕ :=
  let n := c.toNat
  if 48 ≤ n ∧ n ≤ 57 then some (n - 48)
  else if 97 ≤ n ∧ n ≤ 102 then some (n - 97 + 10)
  else if 65 ≤ n ∧ n ≤ 70 then some (n - 65 + 10)
  else Option.none

/-- Digit loop of int(s, 16) after the first digit: an underscore must be
followed by another digit; anything else must itself be a digit. -/
def hexCoreGo : ℕ → List Char → Option ℕ
  | acc, [] => some acc
  | acc, c :: rest =>
    if c = '_' then
      match rest with
      | [] => Option.none
      | c2 :: rest2 =>
        match hexDigitVal c2 with
        | some v => hexCoreGo (16 * acc + v) rest2
        | Option.none => Option.none
    else
      match hexDigitVal c with
      | some v => hexCoreGo (16 * acc + v) rest
      | Option.none => Option.none

/-- Digit part of int(s, 16): at least one digit, underscores only between
digits. -/
def hexCore : List Char → Option ℕ
  | [] => Option.none
  | c :: rest =>
    match hexDigitVal c with
    | some v => hexCoreGo v rest
    | Option.none => Option.none

/-- int(s, 16) after the optional sign: an optional 0x or 0X prefix, which
may be followed by a single underscore, then the digit part. -/
def hexAfterSign (l : List Char) : Option ℕ :=
  match l with
  | c0 :: c1 :: rest =>
    if c0 = '0' ∧ (c1 = 'x' ∨ c1 = 'X') then
      match rest with
      | c2 :: rest2 => if c2 = '_' then hexCore rest2 else hexCore (c2 :: rest2)
      | [] => hexCore []
    else hexCore (c0 :: c1 :: rest)
  | _ => hexCore l

/-- Whitespace stripped by int() around the number (ASCII whitespace). -/
def pyWs (c : Char) : Bool :=
  c = ' ' ∨ c = '\t' ∨ c = '\n' ∨ c = '\r' ∨ c = Char.ofNat 11 ∨ c = Char.ofNat 12

/-- Strip leading and trailing whitespace. -/
def stripPyWs (l : List Char) : List Char :=
  ((l.dropWhile pyWs).reverse.dropWhile pyWs).reverse

/-- Sign handling of int(s, 16): at most one leading + or - sign, applied to
the magnitude parsed by hexAfterSign. -/
def pyIntSigned : List Char → Option ℤ
  | [] => Option.none
  | c :: rest =>
    if c = '+' then (hexAfterSign rest).map (fun n => (n : ℤ))
    else if c = '-' then (hexAfterSign rest).map (fun n => -(n : ℤ))
    else (hexAfterSign (c :: rest)).map (fun n => (n : ℤ))

/-- The Python builtin int(s, 16) on a character list: strip whitespace, an
optional single + or - sign, then prefix and digits; None models a raised
ValueError. -/
def pyIntHex (l : List Char) : Option ℤ := pyIntSigned (stripPyWs l)

/-- Group step of _hex_to_rgb on the string after the lstrip of number-sign
characters: return (0,0,0) unless exactly six characters remain, then parse
the three two-character groups with int(group, 16), catching ValueError as
(0,0,0). -/
def hexToRgbGroups (t : List Char) : ℤ × ℤ × ℤ :=
  if t.length = 6 then
    match pyIntHex (t.take 2), pyIntHex ((t.drop 2).take 2),
        pyIntHex ((t.drop 4).take 2) with
    | some a, some b, some c => (a, b, c)
    | _, _, _ => (0, 0, 0)
  else (0, 0, 0)

/-- Python source: PowerPointConversionService._hex_to_rgb: strip all leading
number-sign characters with lstrip, then parse the three groups. -/
def hexToRgb (s : String) : ℤ × ℤ × ℤ :=
  hexToRgbGroups (s.data.dropWhile (fun c => c = '#'))

/- ---------------------------------------------------------------------
Saving: PDF2PPTX_2 src/core/pptx_generator.py PPTXGenerator.save_presentation.
The file system is modelled as an association list from paths to serialized
document contents; the serialization itself (prs.save) is an external
collaborator and is represented by the abstract content value. -/

/-- Error raised by save_presentation when the target exists and overwrite is
false (FileExistsError). -/
inductive SaveError where
  | fileExists
deriving DecidableEq, Repr

/-- Python source: PPTXGenerator.save_presentation(prs, output_path,
overwrite): if the output path exists and overwrite is false it raises
FileExistsError and the file system is unchanged; otherwise it writes the
serialized presentation at the output path and returns True. -/
def savePresentation {α : Type} (fs : List (String × α)) (prs : α)
    (outputPath : String) (overwrite : Bool) :
    List (String × α) × Except SaveError Bool :=
  if (fs.lookup outputPath).isSome && !overwrite then
    (fs, Except.error SaveError.fileExists)
  else
    ((outputPath, prs) :: fs.filter (fun e => e.1 != outputPath), Except.ok true)

/- ---------------------------------------------------------------------
BatchConversionService: PDF2PPTX_2 src/core/conversion_service.py,
ConversionService.convert_pdf_to_images (single-file page loop with
cooperative cancellation), ConversionService.batch_convert_pdfs and
ConversionService.get_conversion_statistics, with file validation from
src/utils/file_utils.py FileValidator / batch_validate_files.

A source file is described by what the external libraries do with it:
whether FileValidator.validate_pdf_file accepts it (existence, .pdf
extension, size bounds), whether PDFProcessor.get_pdf_info can open it (a
corrupt file passes validation but fails here), and which page conversions
succeed.  The shared cancellation flag is modelled by the index of the first
page at whose pre-page check the flag reads true (cooperative cancellation
is only observed at page boundaries, and the flag never resets during a
run). -/

/-- The ConversionStatus enum of PDF2PPTX_2 src/core/conversion_service.py. -/
inductive ConvStatus where
  | pending
  | preparing
  | processing
  | completing
  | completed
  | failed
  | cancelled
deriving DecidableEq, Repr

/-- Description of one input file as seen through the external pdf
library. -/
structure FileDesc where
  name : String
  validatesOk : Bool
  opensOk : Bool
  openErrText : String
  pageOk : List Bool
deriving DecidableEq, Repr

/-- The fields of ConversionResult read by the batch statistics. -/
structure ConvResult where
  success : Bool
  inputName : String
  pagesProcessed : ℕ
  errorMessage : String
  warnings : List String
deriving DecidableEq, Repr

/-- Value of the shared cancellation flag at the check preceding page p. -/
def cancelFlagAt (cancelBefore : Option ℕ) (p : ℕ) : Bool :=
  match cancelBefore with
  | some c => decide (c ≤ p)
  | Option.none => false

/-- Python source: the page loop of ConversionService.convert_pdf_to_images:
before each page the cancellation flag is checked and, when set, the status
is reported as cancelled and a RuntimeError is raised; a successful page
updates progress.current_page and appends its artifact; a failing page is
logged and skipped.  The state is (current_page, written artifacts); the
returned flag records whether the cancellation RuntimeError was raised. -/
def convertLoop (pageOk : ℕ → Bool) (cancelBefore : Option ℕ) :
    List ℕ → ℕ × List ℕ → (ℕ × List ℕ) × Bool
  | [], st => (st, false)
  | p :: rest, st =>
    if cancelFlagAt cancelBefore p then (st, true)
    else if pageOk p then convertLoop pageOk cancelBefore rest (p, st.2 ++ [p])
    else convertLoop pageOk cancelBefore rest st

/-- Outcome of one ConversionService.convert_pdf_to_images run: the final
progress status, whether a cancelled progress update was emitted on the way,
the final progress.current_page, the page artifacts left on disk and the
returned ConversionResult. -/
structure SingleRun where
  status : ConvStatus
  reportedCancelled : Bool
  currentPage : ℕ
  writtenPages : List ℕ
  result : ConvResult
deriving DecidableEq, Repr

/-- Python source: ConversionService.convert_pdf_to_images on one file.
Validation failure raises ValueError; an unreadable file makes get_pdf_info
raise; the page loop runs over pages 1..n; every exception, including the
cancellation RuntimeError, lands in the generic except-handler, which sets
progress.status to failed and returns a ConversionResult with success False
and the exception text; otherwise the run completes with success True and
total_pages_processed equal to the number of artifacts written. -/
def convertPdfToImagesRun (f : FileDesc) (cancelBefore : Option ℕ) : SingleRun :=
  if !f.validatesOk then
    { status := ConvStatus.failed, reportedCancelled := false, currentPage := 0,
      writtenPages := []
      result := { success := false, inputName := f.name, pagesProcessed := 0,
                  errorMessage := "無効なPDFファイル: " ++ f.name, warnings := [] } }
  else if !f.opensOk then
    { status := ConvStatus.failed, reportedCancelled := false, currentPage := 0,
      writtenPages := []
      result := { success := false, inputName := f.name, pagesProcessed := 0,
                  errorMessage :=
                    "PDFファイルが破損しているか読み込めません: " ++ f.openErrText,
                  warnings := [] } }
  else
    let pages := (List.range f.pageOk.length).map (fun i => i + 1)
    let r := convertLoop (fun p => f.pageOk.getD (p - 1) false) cancelBefore
      pages (0, [])
    if r.2 then
      { status := ConvStatus.failed, reportedCancelled := true,
        currentPage := r.1.1, writtenPages := r.1.2
        result := { success := false, inputName := f.name, pagesProcessed := 0,
                    errorMessage := "変換がキャンセルされました", warnings := [] } }
    else
      { status := ConvStatus.completed, reportedCancelled := false,
        currentPage := r.1.1, writtenPages := r.1.2
        result := { success := true, inputName := f.name,
                    pagesProcessed := r.1.2.length, errorMessage := "",
                    warnings := [] } }

/-- Python source: ConversionService.batch_convert_pdfs for PDF_TO_PNG:
validate all inputs with batch_validate_files, fail the whole batch only when
no valid input remains, otherwise convert every valid file (each per-file
exception is absorbed into a failed per-file result) and complete. -/
def batchConvertPdfs (files : List FileDesc) : ConvStatus × List ConvResult :=
  let valid := files.filter (fun f => f.validatesOk)
  if valid.isEmpty then (ConvStatus.failed, [])
  else (ConvStatus.completed,
    valid.map (fun f => (convertPdfToImagesRun f Option.none).result))

/-- The fields of the get_conversion_statistics dictionary relevant to the
claims. -/
structure BatchStats where
  totalFiles : ℕ
  successfulFiles : ℕ
  failedFiles : ℕ
  totalPages : ℕ
  errors : List String
  warnings : List String
deriving DecidableEq, Repr

/-- Python source: ConversionService.get_conversion_statistics: None models
the error dictionary returned for an empty result list; errors collects the
error messages of unsuccessful results, warnings concatenates the per-result
warning lists. -/
def getConversionStatistics (results : List ConvResult) : Option BatchStats :=
  if results.isEmpty then Option.none
  else some {
    totalFiles := results.length
    successfulFiles := (results.filter (fun r => r.success)).length
    failedFiles := results.length - (results.filter (fun r => r.success)).length
    totalPages := (results.map (fun r => r.pagesProcessed)).sum
    errors := (results.filter
      (fun r => !r.success && r.errorMessage != "")).map (fun r => r.errorMessage)
    warnings := (results.map (fun r => r.warnings)).flatten }

/-- The three-file batch of the claim: files 1 and 3 convert fully (two pages
each), file 2 is corrupt: it passes file validation (it exists, has the .pdf
extension and a plausible size) but cannot be opened by the pdf engine. -/
def exampleBatchFiles : List FileDesc :=
  [ { name := "file1.pdf", validatesOk := true, opensOk := true,
      openErrText := "", pageOk := [true, true] },
    { name := "file2.pdf", validatesOk := true, opensOk := false,
      openErrText := "cannot open broken file", pageOk := [] },
    { name := "file3.pdf", validatesOk := true, opensOk := true,
      openErrText := "", pageOk := [true, true] } ]

/-- The ten-page readable input file of the cancellation claim. -/
def tenPageFile : FileDesc :=
  { name := "doc.pdf", validatesOk := true, opensOk := true, openErrText := "",
    pageOk := List.replicate 10 true }

/- ---------------------------------------------------------------------
Theorems: helper lemmas first, then one theorem per claim with its
counterexamples and witnesses.
--------------------------------------------------------------------- -/

theorem truncQ_of_nonneg {q : ℚ} (h : 0 ≤ q) : truncQ q = ⌊q⌋ := by
  unfold truncQ
  rw [Int.tdiv_eq_ediv (Rat.num_nonneg.mpr h) (Int.natCast_nonneg _), Rat.floor_def]

theorem truncQ_of_neg {q : ℚ} (h : q < 0) : truncQ q = ⌈q⌉ := by
  have hneg : truncQ q = -truncQ (-q) := by
    unfold truncQ
    rw [Rat.neg_num, Rat.neg_den, Int.neg_tdiv, neg_neg]
  rw [hneg, truncQ_of_nonneg (by linarith), Int.floor_neg, neg_neg]

theorem truncQ_nonneg {q : ℚ} (h : 0 ≤ q) : 0 ≤ truncQ q := by
  rw [truncQ_of_nonneg h]
  exact Int.floor_nonneg.mpr h

theorem truncQ_le {q : ℚ} (h : 0 ≤ q) : (truncQ q : ℚ) ≤ q := by
  rw [truncQ_of_nonneg h]
  exact Int.floor_le q

theorem le_truncQ {n : ℤ} {q : ℚ} (h : 0 ≤ q) : n ≤ truncQ q ↔ (n : ℚ) ≤ q := by
  rw [truncQ_of_nonneg h]
  exact Int.le_floor

theorem fittedDims_bounds (iw ih sw sh : ℤ) (hiw : 0 < iw) (hih : 0 < ih)
    (hsw : 0 ≤ sw) (hsh : 0 ≤ sh) :
    0 ≤ (calculateFittedDimensions iw ih sw sh).1 ∧
    (calculateFittedDimensions iw ih sw sh).1 ≤ sw ∧
    0 ≤ (calculateFittedDimensions iw ih sw sh).2 ∧
    (calculateFittedDimensions iw ih sw sh).2 ≤ sh := by
  have hswq : (0:ℚ) ≤ (sw : ℚ) * (9/10) := by
    have : (0:ℚ) ≤ (sw : ℚ) := by exact_mod_cast hsw
    linarith
  have hshq : (0:ℚ) ≤ (sh : ℚ) * (9/10) := by
    have : (0:ℚ) ≤ (sh : ℚ) := by exact_mod_cast hsh
    linarith
  have hA0 : 0 ≤ truncQ ((sw : ℚ) * (9/10)) := truncQ_nonneg hswq
  have hB0 : 0 ≤ truncQ ((sh : ℚ) * (9/10)) := truncQ_nonneg hshq
  have hAsw : truncQ ((sw : ℚ) * (9/10)) ≤ sw := by
    have h1 : (truncQ ((sw : ℚ) * (9/10)) : ℚ) ≤ (sw : ℚ) * (9/10) := truncQ_le hswq
    have h2 : (sw : ℚ) * (9/10) ≤ (sw : ℚ) := by
      have : (0:ℚ) ≤ (sw : ℚ) := by exact_mod_cast hsw
      linarith
    exact_mod_cast le_trans h1 h2
  have hBsh : truncQ ((sh : ℚ) * (9/10)) ≤ sh := by
    have h1 : (truncQ ((sh : ℚ) * (9/10)) : ℚ) ≤ (sh : ℚ) * (9/10) := truncQ_le hshq
    have h2 : (sh : ℚ) * (9/10) ≤ (sh : ℚ) := by
      have : (0:ℚ) ≤ (sh : ℚ) := by exact_mod_cast hsh
      linarith
    exact_mod_cast le_trans h1 h2
  simp only [calculateFittedDimensions]
  split_ifs with hfits
  · exact ⟨hiw.le, le_trans hfits.1 hAsw, hih.le, le_trans hfits.2 hBsh⟩
  · simp only
    have haw0 : (0:ℚ) ≤ (truncQ ((sw : ℚ) * (9/10)) : ℚ) := by exact_mod_cast hA0
    have hah0 : (0:ℚ) ≤ (truncQ ((sh : ℚ) * (9/10)) : ℚ) := by exact_mod_cast hB0
    have hswq2 : (truncQ ((sw : ℚ) * (9/10)) : ℚ) ≤ (sw : ℚ) := by exact_mod_cast hAsw
    have hshq2 : (truncQ ((sh : ℚ) * (9/10)) : ℚ) ≤ (sh : ℚ) := by exact_mod_cast hBsh
    set aw : ℚ := (truncQ ((sw : ℚ) * (9/10)) : ℚ) with haw
    set ah : ℚ := (truncQ ((sh : ℚ) * (9/10)) : ℚ) with hah
    have hiwq : (0:ℚ) < (iw : ℚ) := by exact_mod_cast hiw
    have hihq : (0:ℚ) < (ih : ℚ) := by exact_mod_cast hih
    have hsc : 0 ≤ min (aw / (iw : ℚ)) (ah / (ih : ℚ)) :=
      le_min (div_nonneg haw0 hiwq.le) (div_nonneg hah0 hihq.le)
    have hw0 : (0:ℚ) ≤ (iw : ℚ) * min (aw / (iw : ℚ)) (ah / (ih : ℚ)) :=
      mul_nonneg hiwq.le hsc
    have hh0 : (0:ℚ) ≤ (ih : ℚ) * min (aw / (iw : ℚ)) (ah / (ih : ℚ)) :=
      mul_nonneg hihq.le hsc
    have hwle : (iw : ℚ) * min (aw / (iw : ℚ)) (ah / (ih : ℚ)) ≤ aw := by
      calc (iw : ℚ) * min (aw / (iw : ℚ)) (ah / (ih : ℚ))
          ≤ (iw : ℚ) * (aw / (iw : ℚ)) :=
            mul_le_mul_of_nonneg_left (min_le_left _ _) hiwq.le
        _ = aw := mul_div_cancel₀ aw hiwq.ne'
    have hhle : (ih : ℚ) * min (aw / (iw : ℚ)) (ah / (ih : ℚ)) ≤ ah := by
      calc (ih : ℚ) * min (aw / (iw : ℚ)) (ah / (ih : ℚ))
          ≤ (ih : ℚ) * (ah / (ih : ℚ)) :=
            mul_le_mul_of_nonneg_left (min_le_right _ _) hihq.le
        _ = ah := mul_div_cancel₀ ah hihq.ne'
    refine ⟨truncQ_nonneg hw0, ?_, truncQ_nonneg hh0, ?_⟩
    · have : (truncQ ((iw : ℚ) * min (aw / (iw : ℚ)) (ah / (ih : ℚ))) : ℚ) ≤ (sw : ℚ) :=
        le_trans (truncQ_le hw0) (le_trans hwle hswq2)
      exact_mod_cast this
    · have : (truncQ ((ih : ℚ) * min (aw / (iw : ℚ)) (ah / (ih : ℚ))) : ℚ) ≤ (sh : ℚ) :=
        le_trans (truncQ_le hh0) (le_trans hhle hshq2)
      exact_mod_cast this

theorem center_offset_bounds {f s : ℤ} (h0 : 0 ≤ f) (hfs : f ≤ s) :
    0 ≤ truncQ (((s : ℚ) - (f : ℚ)) / 2) ∧
    truncQ (((s : ℚ) - (f : ℚ)) / 2) + f ≤ s := by
  have hfsq : (f : ℚ) ≤ (s : ℚ) := by exact_mod_cast hfs
  have h0q : (0:ℚ) ≤ (f : ℚ) := by exact_mod_cast h0
  have hq : (0:ℚ) ≤ ((s : ℚ) - (f : ℚ)) / 2 := by linarith
  refine ⟨truncQ_nonneg hq, ?_⟩
  have hle : (truncQ (((s : ℚ) - (f : ℚ)) / 2) : ℚ) ≤ ((s : ℚ) - (f : ℚ)) / 2 :=
    truncQ_le hq
  have : (truncQ (((s : ℚ) - (f : ℚ)) / 2) : ℚ) + (f : ℚ) ≤ (s : ℚ) := by linarith
  exact_mod_cast this

/-- C9: for every bitmap with strictly positive pixel dimensions and every
strictly positive slide size, the placement computed by the fit-and-center
algorithm lies entirely within the slide: the fitted width and height never
exceed the slide width and height, and the computed offsets satisfy
left >= 0, top >= 0, left + fittedWidth <= slideWidth and
top + fittedHeight <= slideHeight. -/
theorem placement_within_slide (iw ih sw sh : ℤ)
    (hiw : 0 < iw) (hih : 0 < ih) (hsw : 0 < sw) (hsh : 0 < sh) :
    0 ≤ (pagePlacement iw ih sw sh).left ∧
    0 ≤ (pagePlacement iw ih sw sh).top ∧
    (pagePlacement iw ih sw sh).width ≤ sw ∧
    (pagePlacement iw ih sw sh).height ≤ sh ∧
    (pagePlacement iw ih sw sh).left + (pagePlacement iw ih sw sh).width ≤ sw ∧
    (pagePlacement iw ih sw sh).top + (pagePlacement iw ih sw sh).height ≤ sh := by
  obtain ⟨hw0, hwsw, hh0, hhsh⟩ := fittedDims_bounds iw ih sw sh hiw hih hsw.le hsh.le
  obtain ⟨hl0, hlw⟩ := center_offset_bounds hw0 hwsw
  obtain ⟨ht0, hth⟩ := center_offset_bounds hh0 hhsh
  simp only [pagePlacement]
  exact ⟨hl0, ht0, hwsw, hhsh, hlw, hth⟩

/-- Witness for placement_within_slide at a concrete input. -/
theorem placement_within_slide_witness :
    0 ≤ (pagePlacement 1000 500 800 800).left ∧
    0 ≤ (pagePlacement 1000 500 800 800).top ∧
    (pagePlacement 1000 500 800 800).width ≤ 800 ∧
    (pagePlacement 1000 500 800 800).height ≤ 800 ∧
    (pagePlacement 1000 500 800 800).left + (pagePlacement 1000 500 800 800).width ≤ 800 ∧
    (pagePlacement 1000 500 800 800).top + (pagePlacement 1000 500 800 800).height ≤ 800 :=
  placement_within_slide 1000 500 800 800 (by decide) (by decide) (by decide) (by decide)

/-- C4: the fitting algorithm computes available sizes from a 10 percent
margin per axis; content that fits within the available sizes on both axes
is returned unscaled and centered, otherwise it is scaled by the smaller of
the two availability ratios and centered; the concrete instance of content
1000 x 500 on canvas 800 x 800 yields fitted 720 x 360 at left 40, top 220. -/
theorem layout_fit_centering (iw ih sw sh : ℤ) (hsw : 0 ≤ sw) (hsh : 0 ≤ sh) :
    ((iw ≤ truncQ ((sw : ℚ) * (9/10)) ∧ ih ≤ truncQ ((sh : ℚ) * (9/10))) ↔
      ((iw : ℚ) ≤ (sw : ℚ) * (1 - 1/10) ∧ (ih : ℚ) ≤ (sh : ℚ) * (1 - 1/10))) ∧
    ((iw : ℚ) ≤ (sw : ℚ) * (1 - 1/10) → (ih : ℚ) ≤ (sh : ℚ) * (1 - 1/10) →
      calculateFittedDimensions iw ih sw sh = (iw, ih) ∧
      pagePlacement iw ih sw sh =
        ⟨⌊((sw : ℚ) - (iw : ℚ)) / 2⌋, ⌊((sh : ℚ) - (ih : ℚ)) / 2⌋, iw, ih⟩) ∧
    (¬ ((iw : ℚ) ≤ (sw : ℚ) * (1 - 1/10) ∧ (ih : ℚ) ≤ (sh : ℚ) * (1 - 1/10)) →
      calculateFittedDimensions iw ih sw sh =
        (truncQ ((iw : ℚ) * min ((truncQ ((sw : ℚ) * (9/10)) : ℚ) / (iw : ℚ))
            ((truncQ ((sh : ℚ) * (9/10)) : ℚ) / (ih : ℚ))),
         truncQ ((ih : ℚ) * min ((truncQ ((sw : ℚ) * (9/10)) : ℚ) / (iw : ℚ))
            ((truncQ ((sh : ℚ) * (9/10)) : ℚ) / (ih : ℚ))))) ∧
    pagePlacement 1000 500 800 800 = ⟨40, 220, 720, 360⟩ := by
  have hswq : (0:ℚ) ≤ (sw : ℚ) * (9/10) := by
    have : (0:ℚ) ≤ (sw : ℚ) := by exact_mod_cast hsw
    linarith
  have hshq : (0:ℚ) ≤ (sh : ℚ) * (9/10) := by
    have : (0:ℚ) ≤ (sh : ℚ) := by exact_mod_cast hsh
    linarith
  have hrew : (sw : ℚ) * (1 - 1/10) = (sw : ℚ) * (9/10) := by ring
  have hreh : (sh : ℚ) * (1 - 1/10) = (sh : ℚ) * (9/10) := by ring
  have hiff : (iw ≤ truncQ ((sw : ℚ) * (9/10)) ∧ ih ≤ truncQ ((sh : ℚ) * (9/10))) ↔
      ((iw : ℚ) ≤ (sw : ℚ) * (1 - 1/10) ∧ (ih : ℚ) ≤ (sh : ℚ) * (1 - 1/10)) := by
    rw [hrew, hreh, le_truncQ hswq, le_truncQ hshq]
  refine ⟨hiff, ?_, ?_, ?_⟩
  · intro h1 h2
    have hfits : iw ≤ truncQ ((sw : ℚ) * (9/10)) ∧ ih ≤ truncQ ((sh : ℚ) * (9/10)) :=
      hiff.mpr ⟨h1, h2⟩
    have hcalc : calculateFittedDimensions iw ih sw sh = (iw, ih) := by
      unfold calculateFittedDimensions
      rw [if_pos hfits]
    refine ⟨hcalc, ?_⟩
    have hleft : (0:ℚ) ≤ ((sw : ℚ) - (iw : ℚ)) / 2 := by
      rw [hrew] at h1
      have h2' : (iw : ℚ) ≤ (sw : ℚ) := by
        have : (0:ℚ) ≤ (sw : ℚ) := by exact_mod_cast hsw
        linarith
      linarith
    have htop : (0:ℚ) ≤ ((sh : ℚ) - (ih : ℚ)) / 2 := by
      rw [hreh] at h2
      have h2' : (ih : ℚ) ≤ (sh : ℚ) := by
        have : (0:ℚ) ≤ (sh : ℚ) := by exact_mod_cast hsh
        linarith
      linarith
    unfold pagePlacement
    rw [hcalc]
    dsimp only
    rw [truncQ_of_nonneg hleft, truncQ_of_nonneg htop]
  · intro hnofits
    have hfits : ¬ (iw ≤ truncQ ((sw : ℚ) * (9/10)) ∧ ih ≤ truncQ ((sh : ℚ) * (9/10))) :=
      fun hc => hnofits (hiff.mp hc)
    unfold calculateFittedDimensions
    rw [if_neg hfits]
  · norm_num [pagePlacement, calculateFittedDimensions, truncQ, min_def]

/-- Witness for layout_fit_centering: a 100 x 50 content on an 800 x 800
canvas fits and is returned unscaled and centered. -/
theorem layout_fit_centering_witness :
    calculateFittedDimensions 100 50 800 800 = (100, 50) ∧
    pagePlacement 100 50 800 800 =
      ⟨⌊((800 : ℚ) - (100 : ℚ)) / 2⌋, ⌊((800 : ℚ) - (50 : ℚ)) / 2⌋, 100, 50⟩ := by
  have h := (layout_fit_centering 100 50 800 800 (by decide) (by decide)).2.1
    (by norm_num) (by norm_num)
  exact_mod_cast h

/-- C6: unit conversion to native units multiplies by 36000 per millimeter
and 12700 per point with truncation to integer, the conversion back divides
by 36000, and for every nonnegative mm the round trip differs from mm by
strictly less than 1/36000. -/
theorem unit_conversion_roundtrip (mm : ℚ) (h : 0 ≤ mm) :
    |emu_to_mm (mm_to_emu mm) - mm| < 1 / 36000 ∧
    mm_to_emu mm = ⌊mm * 36000⌋ ∧
    (∀ p : ℚ, 0 ≤ p → points_to_emu p = ⌊p * 12700⌋) ∧
    mm_to_emu 1 = 36000 ∧ points_to_emu 1 = 12700 := by
  have key : (mm / (254/10)) * 914400 = mm * 36000 := by ring
  have h36 : (0:ℚ) ≤ mm * 36000 := by linarith
  have hm : mm_to_emu mm = ⌊mm * 36000⌋ := by
    unfold mm_to_emu
    rw [key, truncQ_of_nonneg h36]
  refine ⟨?_, hm, ?_, ?_, ?_⟩
  · rw [hm]
    unfold emu_to_mm
    rw [abs_lt]
    have h1 : (⌊mm * 36000⌋ : ℚ) ≤ mm * 36000 := Int.floor_le _
    have h2 : mm * 36000 < ⌊mm * 36000⌋ + 1 := Int.lt_floor_add_one _
    constructor <;> linarith
  · intro p hp
    have keyp : (p / 72) * 914400 = p * 12700 := by ring
    have hp12 : (0:ℚ) ≤ p * 12700 := by linarith
    unfold points_to_emu
    rw [keyp, truncQ_of_nonneg hp12]
  · norm_num [mm_to_emu, truncQ]
  · norm_num [points_to_emu, truncQ]

/-- Witness for unit_conversion_roundtrip at mm = 7/2. -/
theorem unit_conversion_roundtrip_witness :
    (0:ℚ) ≤ 7/2 ∧ |emu_to_mm (mm_to_emu (7/2)) - 7/2| < 1 / 36000 :=
  ⟨by norm_num, (unit_conversion_roundtrip (7/2) (by norm_num)).1⟩

/-- C3 counterexample: under policy auto, PDF2PPTX_2 _apply_rotation keeps
the unrotated rendering of a portrait 200 x 300 page as 200 x 300, although
the page width is strictly less than its height, so the cited rasterization
path does not rotate a portrait page and its final size is not (300, 200). -/
theorem auto_rotation_counterexample :
    applyRotation 200 300 200 300 RotationMode.auto = (200, 300) ∧
    (200 : ℚ) < 300 := by decide

/-- C3 amended: in PDF2PPTX process_page_to_pixmap with auto_rotate enabled a
page is rotated if and only if its width is strictly less than its height,
finalSize swaps exactly then (200 x 300 gives (300, 200), 300 x 200 stays
(300, 200)); in PDF2PPTX_2 _apply_rotation, policy auto rotates only when the
page and image orientations differ, so an image whose orientation matches the
page is returned unchanged. -/
theorem auto_rotation_amended :
    (∀ w h : ℚ, ((processPageToPixmapInfo 1 w h true).wasRotated = true ↔ w < h)) ∧
    (∀ w h : ℚ, w < h → (processPageToPixmapInfo 1 w h true).finalSize = (h, w)) ∧
    (∀ w h : ℚ, ¬ w < h → (processPageToPixmapInfo 1 w h true).finalSize = (w, h)) ∧
    (processPageToPixmapInfo 1 200 300 true).finalSize = (300, 200) ∧
    (processPageToPixmapInfo 1 300 200 true).finalSize = (300, 200) ∧
    (∀ pw ph : ℚ, ∀ iw ih : ℕ, ((ph < pw) ↔ ((ih : ℕ) < iw)) →
      applyRotation pw ph iw ih RotationMode.auto = (iw, ih)) := by
  refine ⟨?_, ?_, ?_, by decide, by decide, ?_⟩
  · intro w h
    by_cases hw : w < h <;> simp [processPageToPixmapInfo, hw]
  · intro w h hw
    simp [processPageToPixmapInfo, hw]
  · intro w h hw
    simp [processPageToPixmapInfo, hw]
  · intro pw ph iw ih hiff
    by_cases hp : ph < pw
    · have hi : ih < iw := hiff.mp hp
      simp [applyRotation, hp, hi]
    · have hi : ¬ ih < iw := fun h2 => hp (hiff.mpr h2)
      simp [applyRotation, hp, hi]

/-- Witness for auto_rotation_amended: a landscape page with a landscape
image is left unrotated by policy auto. -/
theorem auto_rotation_amended_witness :
    applyRotation 300 200 400 300 RotationMode.auto = (400, 300) :=
  auto_rotation_amended.2.2.2.2.2 300 200 400 300 (by norm_num)

/-- C8 counterexample: a strictly positive resolution of 50 dpi with a
strictly positive scale factor is rejected at construction, and a strictly
positive scale factor of 20 with quality-free valid inputs is rejected by
validation, although the claim says both must succeed; moreover the
PDF2PPTX_2 ConversionSettings dataclass accepts a negative dpi and an
out-of-range quality without any error. -/
theorem config_validation_counterexample :
    conversionConfigPostInit 2 50 = Except.error "DPI must be at least 72" ∧
    (0 : ℚ) < 2 ∧ (0 : ℤ) < 50 ∧
    validateConversionConfig 20 420 297 150 =
      Except.error "Scale factor must be between 0 and 10" ∧
    (0 : ℚ) < 20 ∧
    (ConversionSettings.mk (-5) 2 RotationMode.auto 300 true true).dpi = -5 :=
  ⟨rfl, by norm_num, by decide, rfl, by norm_num, rfl⟩

/-- C8 amended: construction of a PDF2PPTX ConversionConfig succeeds exactly
when the scale factor is strictly positive and the resolution is at least 72
dpi; validate_conversion_config succeeds exactly when the scale factor lies
in (0, 10], both slide dimensions are strictly positive and the resolution
lies in [72, 600]; quality is never validated anywhere, and the PDF2PPTX_2
ConversionSettings dataclass accepts arbitrary values. -/
theorem config_validation_amended (scale w h : ℚ) (dpi : ℤ) :
    (conversionConfigPostInit scale dpi = Except.ok () ↔
      (0 < scale ∧ 72 ≤ dpi)) ∧
    (validateConversionConfig scale w h dpi = Except.ok () ↔
      (0 < scale ∧ scale ≤ 10 ∧ 0 < w ∧ 0 < h ∧ 72 ≤ dpi ∧ dpi ≤ 600)) := by
  constructor
  · unfold conversionConfigPostInit
    split_ifs with h1 h2
    · exact iff_of_false (fun hc => hc)
        (fun hc => absurd hc.1 (not_lt.mpr h1))
    · exact iff_of_false (fun hc => hc)
        (fun hc => absurd hc.2 (not_le.mpr h2))
    · exact iff_of_true rfl ⟨not_le.mp h1, not_lt.mp h2⟩
  · unfold validateConversionConfig
    split_ifs with h1 h2 h3
    · refine iff_of_false (fun hc => hc) ?_
      rintro ⟨hs1, hs2, _, _, _, _⟩
      rcases h1 with hx | hx
      · linarith
      · linarith
    · refine iff_of_false (fun hc => hc) ?_
      rintro ⟨_, _, hw, hh, _, _⟩
      rcases h2 with hx | hx
      · linarith
      · linarith
    · refine iff_of_false (fun hc => hc) ?_
      rintro ⟨_, _, _, _, hd1, hd2⟩
      rcases h3 with hx | hx
      · omega
      · omega
    · have h1x := not_or.mp h1
      have h2x := not_or.mp h2
      have h3x := not_or.mp h3
      exact iff_of_true rfl ⟨not_le.mp h1x.1, not_lt.mp h1x.2, not_le.mp h2x.1,
        not_le.mp h2x.2, not_lt.mp h3x.1, not_lt.mp h3x.2⟩

/-- C5 counterexample: with both flags enabled, the builder appends the page
number after cleaning the stem, so both claimed calls produce the string
report_3_3 and neither produces report_3. -/
theorem label_idempotence_counterexample :
    buildLabelText "report_page_003_3" (some 3) Option.none ⟨true, true, ""⟩ ≠
      "report_3" ∧
    buildLabelText "report_3" (some 3) Option.none ⟨true, true, ""⟩ ≠
      "report_3" := by decide

/-- C5 amended: with includeFilename and includePageNumber both enabled, the
two claimed calls both return exactly report_3_3: the cleanup maps both stems
to the same cleaned stem report_3 (which is a fixed point of the cleanup
rule), and the builder then appends one page-number suffix, so a filename
produced by a prior page-extraction step yields the same label as a clean
one. -/
theorem label_idempotence_amended :
    buildLabelText "report_page_003_3" (some 3) Option.none ⟨true, true, ""⟩ =
      "report_3_3" ∧
    buildLabelText "report_3" (some 3) Option.none ⟨true, true, ""⟩ =
      "report_3_3" ∧
    cleanFilename "report_page_003_3" = "report_3" ∧
    cleanFilename "report_3" = "report_3" ∧
    cleanFilename (cleanFilename "report_page_003_3") =
      cleanFilename "report_page_003_3" := by decide

theorem hexDigitVal_le {c : Char} {v : ℕ} (h : hexDigitVal c = some v) :
    v ≤ 15 := by
  simp only [hexDigitVal] at h
  split_ifs at h with h1 h2 h3 <;> simp_all <;> omega

theorem hexCore_len1 {c : Char} {n : ℕ} (h : hexCore [c] = some n) : n ≤ 15 := by
  simp only [hexCore] at h
  rcases hd : hexDigitVal c with _ | v
  · rw [hd] at h
    simp at h
  · rw [hd] at h
    have hv : v = n := by simpa [hexCoreGo] using h
    have := hexDigitVal_le hd
    omega

theorem hexCore_len2 {c1 c2 : Char} {n : ℕ} (h : hexCore [c1, c2] = some n) :
    n ≤ 255 := by
  simp only [hexCore] at h
  rcases h1 : hexDigitVal c1 with _ | v1
  · rw [h1] at h
    simp at h
  · rw [h1] at h
    simp only [hexCoreGo] at h
    by_cases hu : c2 = '_'
    · rw [if_pos hu] at h
      simp at h
    · rw [if_neg hu] at h
      rcases h2 : hexDigitVal c2 with _ | v2
      · rw [h2] at h
        simp at h
      · rw [h2] at h
        have hv : 16 * v1 + v2 = n := by simpa [hexCoreGo] using h
        have b1 := hexDigitVal_le h1
        have b2 := hexDigitVal_le h2
        omega

theorem hexAfterSign_le_15 {l : List Char} (hl : l.length ≤ 1) {n : ℕ}
    (h : hexAfterSign l = some n) : n ≤ 15 := by
  rcases l with _ | ⟨c, _ | ⟨c2, t⟩⟩
  · simp [hexAfterSign, hexCore] at h
  · exact hexCore_len1 (by simpa [hexAfterSign] using h)
  · simp at hl

theorem hexAfterSign_le_255 {l : List Char} (hl : l.length ≤ 2) {n : ℕ}
    (h : hexAfterSign l = some n) : n ≤ 255 := by
  rcases l with _ | ⟨c0, _ | ⟨c1, _ | ⟨c2, t⟩⟩⟩
  · simp [hexAfterSign, hexCore] at h
  · exact le_trans (hexCore_len1 (by simpa [hexAfterSign] using h)) (by norm_num)
  · simp only [hexAfterSign] at h
    split_ifs at h with hp
    · simp [hexCore] at h
    · exact hexCore_len2 h
  · simp at hl

theorem stripPyWs_length_le (l : List Char) : (stripPyWs l).length ≤ l.length := by
  unfold stripPyWs
  calc (((l.dropWhile pyWs).reverse.dropWhile pyWs).reverse).length
      = ((l.dropWhile pyWs).reverse.dropWhile pyWs).length := List.length_reverse _
    _ ≤ (l.dropWhile pyWs).reverse.length := (List.dropWhile_sublist _).length_le
    _ = (l.dropWhile pyWs).length := List.length_reverse _
    _ ≤ l.length := (List.dropWhile_sublist _).length_le

theorem pyIntHex_bounds {l : List Char} (hl : l.length ≤ 2) {z : ℤ}
    (h : pyIntHex l = some z) : -15 ≤ z ∧ z ≤ 255 := by
  unfold pyIntHex at h
  have hsl : (stripPyWs l).length ≤ 2 := le_trans (stripPyWs_length_le l) hl
  rcases hst : stripPyWs l with _ | ⟨c, rest⟩
  · rw [hst] at h
    simp [pyIntSigned] at h
  · rw [hst] at h hsl
    simp only [pyIntSigned] at h
    have hrest : rest.length ≤ 1 := by
      simp at hsl
      omega
    by_cases hplus : c = '+'
    · rw [if_pos hplus] at h
      rcases ha : hexAfterSign rest with _ | n
      · rw [ha] at h
        simp at h
      · rw [ha] at h
        have hz : (n : ℤ) = z := by simpa using h
        have := hexAfterSign_le_15 hrest ha
        constructor <;> omega
    · by_cases hminus : c = '-'
      · rw [if_neg hplus, if_pos hminus] at h
        rcases ha : hexAfterSign rest with _ | n
        · rw [ha] at h
          simp at h
        · rw [ha] at h
          have hz : -(n : ℤ) = z := by simpa using h
          have := hexAfterSign_le_15 hrest ha
          constructor <;> omega
      · rw [if_neg hplus, if_neg hminus] at h
        rcases ha : hexAfterSign (c :: rest) with _ | n
        · rw [ha] at h
          simp at h
        · rw [ha] at h
          have hz : (n : ℤ) = z := by simpa using h
          have := hexAfterSign_le_255 hsl ha
          constructor <;> omega

theorem hexToRgbGroups_range (t : List Char) :
    (-15 ≤ (hexToRgbGroups t).1 ∧ (hexToRgbGroups t).1 ≤ 255) ∧
    (-15 ≤ (hexToRgbGroups t).2.1 ∧ (hexToRgbGroups t).2.1 ≤ 255) ∧
    (-15 ≤ (hexToRgbGroups t).2.2 ∧ (hexToRgbGroups t).2.2 ≤ 255) := by
  unfold hexToRgbGroups
  split_ifs with hlen
  · have h1 : (t.take 2).length ≤ 2 := by
      simp [List.length_take]
    have h2 : ((t.drop 2).take 2).length ≤ 2 := by
      simp [List.length_take]
    have h3 : ((t.drop 4).take 2).length ≤ 2 := by
      simp [List.length_take]
    split
    · rename_i a b c heqa heqb heqc
      exact ⟨pyIntHex_bounds h1 heqa, pyIntHex_bounds h2 heqb, pyIntHex_bounds h3 heqc⟩
    · norm_num
  · norm_num

theorem hexToRgb_range (s : String) :
    (-15 ≤ (hexToRgb s).1 ∧ (hexToRgb s).1 ≤ 255) ∧
    (-15 ≤ (hexToRgb s).2.1 ∧ (hexToRgb s).2.1 ≤ 255) ∧
    (-15 ≤ (hexToRgb s).2.2 ∧ (hexToRgb s).2.2 ≤ 255) :=
  hexToRgbGroups_range _

/-- C10 counterexample: the input string of three signed groups, which is not
six hexadecimal digits, parses to (-1, -1, -1) instead of the claimed default
(0, 0, 0), and its first component lies outside [0, 255]. -/
theorem hex_to_rgb_counterexample :
    hexToRgb "-1-1-1" = (-1, -1, -1) ∧ hexToRgb "-1-1-1" ≠ (0, 0, 0) ∧
    ¬ (0 ≤ (hexToRgb "-1-1-1").1) := by decide

/-- C10 amended: hex color parsing is total and every component lies in
[-15, 255]; the two-character groups are parsed with Python int semantics,
which also accept an optional sign and surrounding whitespace, so components
may be negative; any string without exactly six characters after stripping
all leading number-sign characters maps to the default black (0, 0, 0), and
a genuine six-digit color such as the repository default 1976D2 parses to its
RGB triple. -/
theorem hex_to_rgb_amended (s : String) :
    (-15 ≤ (hexToRgb s).1 ∧ (hexToRgb s).1 ≤ 255) ∧
    (-15 ≤ (hexToRgb s).2.1 ∧ (hexToRgb s).2.1 ≤ 255) ∧
    (-15 ≤ (hexToRgb s).2.2 ∧ (hexToRgb s).2.2 ≤ 255) ∧
    ((s.data.dropWhile (fun c => c = '#')).length ≠ 6 → hexToRgb s = (0, 0, 0)) ∧
    hexToRgb "#1976D2" = (25, 118, 210) := by
  obtain ⟨r1, r2, r3⟩ := hexToRgb_range s
  refine ⟨r1, r2, r3, ?_, by decide⟩
  intro hlen
  simp [hexToRgb, hexToRgbGroups, hlen]

/-- Witness for hex_to_rgb_amended: a two-character input maps to black. -/
theorem hex_to_rgb_amended_witness : hexToRgb "ab" = (0, 0, 0) :=
  (hex_to_rgb_amended "ab").2.2.2.1 (by decide)

/-- C7: save fails with the output-exists error exactly when the target file
already exists and overwrite is false, leaving the file system unchanged in
that case; otherwise it stores the serialized presentation at the output path
and reports success. -/
theorem save_presentation_spec {α : Type} (fs : List (String × α)) (prs : α)
    (path : String) (ow : Bool) :
    ((savePresentation fs prs path ow).2 = Except.error SaveError.fileExists ↔
      ((fs.lookup path).isSome = true ∧ ow = false)) ∧
    ((fs.lookup path).isSome = true → ow = false →
      (savePresentation fs prs path ow).1 = fs) ∧
    (¬ ((fs.lookup path).isSome = true ∧ ow = false) →
      (savePresentation fs prs path ow).2 = Except.ok true ∧
      ((savePresentation fs prs path ow).1.lookup path) = some prs) := by
  unfold savePresentation
  by_cases hex : (fs.lookup path).isSome = true
  · cases ow with
    | false =>
      simp [hex]
    | true =>
      simp [hex, List.lookup]
  · have hex2 : (fs.lookup path).isSome = false := by
      cases hx : (fs.lookup path).isSome
      · rfl
      · exact absurd hx hex
    simp [hex2, List.lookup]

/-- Witness for save_presentation_spec: saving over an existing file with
overwrite disabled reports the output-exists error and leaves the stored
content unchanged. -/
theorem save_presentation_spec_witness :
    (savePresentation [("out.pptx", 1)] 2 "out.pptx" false).2 =
      Except.error SaveError.fileExists ∧
    (savePresentation [("out.pptx", 1)] 2 "out.pptx" false).1 =
      [("out.pptx", 1)] :=
  ⟨(save_presentation_spec [("out.pptx", (1 : ℕ))] 2 "out.pptx" false).1.mpr
      ⟨by decide, rfl⟩,
    (save_presentation_spec [("out.pptx", (1 : ℕ))] 2 "out.pptx" false).2.1
      (by decide) rfl⟩

/-- C1 counterexample: in the three-file batch where exactly file 2 is
corrupt, the aggregated statistics report 2 successful files out of 3, but
the warnings list is empty: the per-file failure is recorded in the errors
list of the statistics, not as a warning, so there is not exactly one warning
referencing file 2. -/
theorem batch_partial_failure_counterexample :
    ((getConversionStatistics (batchConvertPdfs exampleBatchFiles).2).map
      (fun st => st.warnings)) = some [] ∧
    ((getConversionStatistics (batchConvertPdfs exampleBatchFiles).2).map
      (fun st => st.successfulFiles)) = some 2 ∧
    ((getConversionStatistics (batchConvertPdfs exampleBatchFiles).2).map
      (fun st => st.totalFiles)) = some 3 := by decide

/-- C1 amended: for the three-file batch where exactly file 2 is corrupt the
batch completes (it is not failed), the statistics report 2 successful files
out of 3 with 4 pages, exactly one error entry carrying the corrupt-file
message, an empty warnings list, and the single failed per-file result names
file 2 as its input; in general the batch reaches the failed status exactly
when no input file passes validation, so only errors preventing any forward
progress escalate the whole job. -/
theorem batch_partial_failure_amended :
    (∀ files : List FileDesc,
      ((batchConvertPdfs files).1 = ConvStatus.failed ↔
        (files.filter (fun f => f.validatesOk)).isEmpty = true)) ∧
    (batchConvertPdfs exampleBatchFiles).1 = ConvStatus.completed ∧
    getConversionStatistics (batchConvertPdfs exampleBatchFiles).2 =
      some { totalFiles := 3, successfulFiles := 2, failedFiles := 1,
             totalPages := 4,
             errors :=
               ["PDFファイルが破損しているか読み込めません: cannot open broken file"],
             warnings := [] } ∧
    (((batchConvertPdfs exampleBatchFiles).2.filter
      (fun r => !r.success)).map (fun r => r.inputName)) = ["file2.pdf"] := by
  refine ⟨?_, by decide, by decide, by decide⟩
  intro files
  unfold batchConvertPdfs
  by_cases h : (files.filter (fun f => f.validatesOk)).isEmpty = true
  · simp [h]
  · simp [h]

/-- C2: cancelling after page 5 of a 10-page job stops before page 6: exactly
pages 1 to 5 are on disk, current_page is 5 and no later page is rasterized
or written, and a cancelled progress update is emitted; but the final state
is failed, not cancelled, because the RuntimeError used to leave the page
loop is caught by the generic except-handler, which overwrites the status
with failed and returns a result with success False. -/
theorem cancellation_mid_job :
    (convertPdfToImagesRun tenPageFile (some 6)).status = ConvStatus.failed ∧
    (convertPdfToImagesRun tenPageFile (some 6)).status ≠ ConvStatus.cancelled ∧
    (convertPdfToImagesRun tenPageFile (some 6)).reportedCancelled = true ∧
    (convertPdfToImagesRun tenPageFile (some 6)).currentPage = 5 ∧
    (convertPdfToImagesRun tenPageFile (some 6)).writtenPages = [1, 2, 3, 4, 5] ∧
    ((convertPdfToImagesRun tenPageFile (some 6)).writtenPages.all
      (fun p => decide (p < 6))) = true ∧
    (convertPdfToImagesRun tenPageFile (some 6)).result.success = false ∧
    (convertPdfToImagesRun tenPageFile (some 6)).result.errorMessage =
      "変換がキャンセルされました" := by decide
